import Mathlib

/-!
Verification of the live-edge detection and duplicate-suppressed publish
pipeline of a Twitch-to-Bluesky notification bot.

The definitions below are a shallow embedding of the Python sources:
`bluesky_poster.py` (BlueSkyPoster), `twitch_monitor.py` (TwitchMonitor)
and `main.py` (LiveBot).  Timestamps are modelled as integer seconds
(`datetime.now()` values); remote-call outcomes (HTTP responses, the
atproto send, the blob upload) are passed in as explicit parameters, and
a raised exception is modelled as `none` / a `none` result component.
Python truthiness of optional strings (`if s:`) is modelled by
`pyTruthy`.
-/

namespace BskyBot

/-- Result entry of the Twitch Helix streams endpoint, as consumed by the
bot (`streams[0]` fields read via `.get`). -/
structure StreamSnapshot where
  id : String
  title : String
  game_name : String
  viewer_count : Nat
deriving DecidableEq, Repr

/-- Python truthiness of an optional string: `None` and `""` are falsy. -/
def pyTruthy : Option String → Bool
  | some s => !s.isEmpty
  | none => false

/-! ## BlueSkyPoster: duplicate suppression and posting -/

/-- Duplicate-tracking state of `BlueSkyPoster`: the fields
`_last_post_content` and `_last_post_time` (time in integer seconds). -/
structure PostState where
  last_post_content : Option String
  last_post_time : Option Int
deriving DecidableEq, Repr

/-- Embedding of `BlueSkyPoster._is_duplicate_post`: duplicate iff the
last posted content is set and equal to `text` and the last post time is
set and strictly less than 7200 seconds before `now`. -/
def is_duplicate_post (s : PostState) (now : Int) (text : String) : Bool :=
  match s.last_post_content with
  | none => false
  | some c =>
    if c = text then
      match s.last_post_time with
      | some t => decide (now - t < 7200)
      | none => false
    else false

/-- Minimal model of an atproto external-embed card as built by
`_fetch_link_preview` (`thumb` holds the uploaded blob reference). -/
structure EmbedCard where
  uri : String
  title : String
  description : String
  thumb : Option String
deriving DecidableEq, Repr

/-- Embedding of `BlueSkyPoster.post`.  `text` is the rendered plain text
(`text.build_text()` for a TextBuilder argument), `sendOk` is whether the
remote send (including client login) succeeds.  The first component is
`some b` for a normal return of `b` and `none` when `BlueSkyPostError`
is raised; the second component is the poster's duplicate-tracking state
after the call (updated only on a successful send). -/
def post (s : PostState) (now : Int) (text : String) (force : Bool)
    (embed : Option EmbedCard) (sendOk : Bool) : Option Bool × PostState :=
  if !force && is_duplicate_post s now text then
    (some false, s)
  else if sendOk then
    (some true, ⟨some text, some now⟩)
  else
    (none, s)

/-- Embedding of the plain-text rendering of the rich text built by
`BlueSkyPoster.post_live_notification` (TextBuilder `build_text`): the
fixed announcement, optional title/game lines guarded by Python
truthiness, the four hashtags, and the stream URL. -/
def build_notification_text (streamUrl : String)
    (stream_title game_name : Option String) : String :=
  "🔴 I'm live on Twitch rn come slide!~\n\n"
  ++ (if pyTruthy stream_title && pyTruthy game_name then
        "📺 " ++ stream_title.getD "" ++ "\n\n🎮 Playing "
          ++ game_name.getD "" ++ "\n\n"
      else if pyTruthy stream_title then
        "📺 " ++ stream_title.getD "" ++ "\n\n"
      else if pyTruthy game_name then
        "🎮 Playing " ++ game_name.getD "" ++ "\n\n"
      else "")
  ++ "#blacksygamers #gaming #twitch #streaming\n\n"
  ++ streamUrl

/-- Embedding of `BlueSkyPoster.post_live_notification`: builds the rich
text, fetches a link preview (passed here as `linkPreview`, possibly
`none` on failure) and calls `post` with `force := is_manual_override`. -/
def post_live_notification (s : PostState) (now : Int) (streamUrl : String)
    (stream_title game_name : Option String) (is_manual_override : Bool)
    (linkPreview : Option EmbedCard) (sendOk : Bool) : Option Bool × PostState :=
  post s now (build_notification_text streamUrl stream_title game_name)
    is_manual_override linkPreview sendOk

/-- C1: with force=false, post returns false (without raising) iff the text
equals the previously published content and strictly less than 7200 seconds
elapsed; force=true, an empty record, or a 7200-second boundary never
suppress, and at exactly 7200 seconds a successful send returns true. -/
theorem c1_duplicate_suppression :
    (∀ (now t : Int) (c text : String) (embed : Option EmbedCard) (sendOk : Bool),
      (post ⟨some c, some t⟩ now text false embed sendOk).1 = some false
        ↔ (text = c ∧ now - t < 7200))
    ∧ (∀ (s : PostState) (now : Int) (text : String) (embed : Option EmbedCard)
        (sendOk : Bool),
      post s now text true embed sendOk
        = if sendOk then (some true, ⟨some text, some now⟩) else (none, s))
    ∧ (∀ (now : Int) (tm : Option Int) (text : String) (embed : Option EmbedCard)
        (sendOk : Bool),
      post ⟨none, tm⟩ now text false embed sendOk
        = if sendOk then (some true, ⟨some text, some now⟩) else (none, ⟨none, tm⟩))
    ∧ (∀ (t : Int) (c : String) (embed : Option EmbedCard),
      post ⟨some c, some t⟩ (t + 7200) c false embed true
        = (some true, ⟨some c, some (t + 7200)⟩)) := by
  refine ⟨?_, ?_, ?_, ?_⟩
  · intro now t c text embed sendOk
    constructor
    · intro h
      by_cases hc : c = text
      · subst hc
        by_cases ht : now - t < 7200
        · exact ⟨rfl, ht⟩
        · exfalso
          cases sendOk <;> simp [post, is_duplicate_post, ht] at h
      · exfalso
        cases sendOk <;> simp [post, is_duplicate_post, hc] at h
    · rintro ⟨rfl, ht⟩
      simp [post, is_duplicate_post, ht]
  · intro s now text embed sendOk
    simp [post]
  · intro now tm text embed sendOk
    simp [post, is_duplicate_post]
  · intro t c embed
    simp [post, is_duplicate_post]

/-- C9: the duplicate-suppression record is overwritten exactly on a
successful publish; a suppressed publish (returns false) and a publish
that raises (modelled as a `none` result) leave the record unchanged. -/
theorem c9_post_record_update (s : PostState) (now : Int) (text : String)
    (force : Bool) (embed : Option EmbedCard) (sendOk : Bool) :
    ((post s now text force embed sendOk).1 = some true
      → (post s now text force embed sendOk).2 = ⟨some text, some now⟩)
    ∧ ((post s now text force embed sendOk).1 = some false
      → (post s now text force embed sendOk).2 = s)
    ∧ ((post s now text force embed sendOk).1 = none
      → (post s now text force embed sendOk).2 = s) := by
  unfold post
  by_cases hd : (!force && is_duplicate_post s now text) = true
  · simp [hd]
  · cases sendOk <;> simp [hd]

/-- C9 witness: at a concrete suppressed call, a concrete successful call
and a concrete failing call, the record is as the theorem states. -/
theorem c9_post_record_update_witness :
    (post ⟨some "a", some 0⟩ 100 "a" false none true).2 = ⟨some "a", some 0⟩
    ∧ (post ⟨some "a", some 0⟩ 100 "b" false none true).2 = ⟨some "b", some 100⟩
    ∧ (post ⟨some "a", some 0⟩ 100 "b" false none false).2 = ⟨some "a", some 0⟩ :=
  ⟨(c9_post_record_update ⟨some "a", some 0⟩ 100 "a" false none true).2.1 (by decide),
   (c9_post_record_update ⟨some "a", some 0⟩ 100 "b" false none true).1 (by decide),
   (c9_post_record_update ⟨some "a", some 0⟩ 100 "b" false none false).2.2 (by decide)⟩

/-! ## LiveBot: edge-triggered monitoring loop -/

/-- Embedding of `LiveBot.run_once`.  `statusResult` is the tick's
`twitch_monitor.is_live()` outcome: `none` models a raised
`TwitchAPIError` (caught in `run_once`, leaving the state untouched).
Returns the stored `_last_live_status` after the tick and whether the
went-live handler (the publish attempt, `_handle_went_live`) fired; the
went-offline handler `_handle_went_offline` performs no publish. -/
def run_once (lastLive : Bool) (statusResult : Option Bool) : Bool × Bool :=
  match statusResult with
  | none => (lastLive, false)
  | some live =>
    if live ≠ lastLive then (live, live) else (lastLive, false)

/-- Embedding of `LiveBot.run_once` at the snapshot level: the tick's
status query yields `none` on `TwitchAPIError`, `some none` when offline
and `some (some snap)` when live; the transition decision only compares
`snap.isSome` (`is_live`) with the stored boolean. -/
def run_once_snapshot (lastLive : Bool)
    (queryResult : Option (Option StreamSnapshot)) : Bool × Bool :=
  run_once lastLive (queryResult.map Option.isSome)

/-- Embedding of the initial-state assignment in `LiveBot.run`: the first
`is_live()` result, with a raised `TwitchAPIError` (here `none`) mapped
to `False` (offline). -/
def initial_live_state (statusResult : Option Bool) : Bool :=
  statusResult.getD false

/-- Iterates `run_once` over a list of per-tick live statuses, returning
the final stored state and the number of ticks whose went-live handler
fired. -/
def run_ticks : Bool → List Bool → Bool × Nat
  | prev, [] => (prev, 0)
  | prev, b :: rest =>
    let step := run_once prev (some b)
    let tail := run_ticks step.1 rest
    (tail.1, (if step.2 then 1 else 0) + tail.2)

/-- Number of maximal runs of consecutive `true` entries that begin with
an offline-to-live transition, given the state preceding the list. -/
def count_live_runs : Bool → List Bool → Nat
  | _, [] => 0
  | prev, b :: rest => (if b && !prev then 1 else 0) + count_live_runs b rest

/-- One tick stores the reported status and fires the publish handler
exactly on an offline-to-live edge. -/
theorem run_once_some (prev b : Bool) :
    run_once prev (some b) = (b, b && !prev) := by
  cases prev <;> cases b <;> decide

/-- C2: over any sequence of live/offline tick results, the publish
handler fires exactly once per maximal run of consecutive live results
(counted from the initial stored state), and a live-to-offline tick
stores offline without firing any publish. -/
theorem c2_edge_triggered_publish :
    (∀ (prev : Bool) (xs : List Bool),
      (run_ticks prev xs).2 = count_live_runs prev xs)
    ∧ run_once true (some false) = (false, false) := by
  constructor
  · intro prev xs
    induction xs generalizing prev with
    | nil => rfl
    | cons b rest ih =>
      simp [run_ticks, run_once_some, count_live_runs, ih]
  · decide

/-- C5: a failing status query never changes the stored live state: the
initial query failure initialises the state to offline, and a failing
tick leaves the state untouched and fires no publish. -/
theorem c5_failed_query_no_change :
    initial_live_state none = false
    ∧ (∀ q : Bool, initial_live_state (some q) = q)
    ∧ (∀ lastLive : Bool, run_once lastLive none = (lastLive, false)) := by
  refine ⟨rfl, fun q => rfl, fun lastLive => rfl⟩

/-- C10: while the state is live, a live tick is a no-op regardless of
the snapshot's id, title or game: after going live with snapshot `s1`,
a second live tick with any snapshot `s2` changes nothing and fires no
publish. -/
theorem c10_no_publish_within_live_run (s1 s2 : StreamSnapshot) :
    run_once_snapshot (run_once_snapshot false (some (some s1))).1
        (some (some s2)) = (true, false)
    ∧ run_once_snapshot true (some (some s2)) = (true, false) := by
  constructor <;> rfl

/-! ## TwitchMonitor: token cache and stream status -/

/-- Token-cache state of `TwitchMonitor`: the fields `_access_token` and
`_token_expires_at` (expiry in integer seconds). -/
structure TokenState where
  access_token : Option String
  token_expires_at : Option Int
deriving DecidableEq, Repr

/-- Embedding of `TwitchMonitor._get_access_token`.  `exchange` is the
outcome of the client-credentials POST: `some (tok, expires_in)` on a
200 response carrying `access_token` (with `expires_in` already
defaulted to 3600 when absent), `none` when the request fails, returns
non-200 or lacks `access_token` (a raised `TwitchAPIError`).  The cached
token is reused when it is truthy (non-empty) and
`now < expires_at - 300` (five-minute margin); otherwise the exchange
result is stored as `(tok, now + expires_in)` and returned. -/
def get_access_token (s : TokenState) (now : Int)
    (exchange : Option (String × Int)) : Option (String × TokenState) :=
  match s.access_token, s.token_expires_at with
  | some tok, some exp =>
    if !tok.isEmpty && decide (now < exp - 300) then
      some (tok, s)
    else
      exchange.map fun p => (p.1, ⟨some p.1, some (now + p.2)⟩)
  | _, _ =>
    exchange.map fun p => (p.1, ⟨some p.1, some (now + p.2)⟩)

/-- Embedding of `TwitchMonitor.get_stream_info`, given the streams
endpoint's HTTP response (`statusCode` and decoded `data` list).  The
outer `none` models a raised `TwitchAPIError` (non-200 status); a
successful query maps an empty list to `none` (offline) and a non-empty
list to its first entry. -/
def get_stream_info (statusCode : Nat) (streams : List StreamSnapshot) :
    Option (Option StreamSnapshot) :=
  if statusCode ≠ 200 then none
  else some streams.head?

/-- Embedding of `TwitchMonitor.is_live`: `get_stream_info() is not None`,
propagating a raised `TwitchAPIError` (the outer `none`). -/
def is_live (statusCode : Nat) (streams : List StreamSnapshot) : Option Bool :=
  (get_stream_info statusCode streams).map Option.isSome

/-- Embedding of `TwitchMonitor.get_stream_url` (the monitor's username
is lowercased at construction time). -/
def get_stream_url (monitorUsername : String) : String :=
  "https://twitch.tv/" ++ monitorUsername

/-- C3: the cached token is reused (state unchanged, no exchange result
consumed) while `now < expires_at - 300`; otherwise a new exchange is
performed, cached as `(token, now + expires_in)` and returned; in the
concrete scenario a token issued at t=0 with `expires_in = 3600` is
reused at t=3000 and replaced at t=3400. -/
theorem c3_token_cache (tok : String) (exp now : Int)
    (hne : tok.isEmpty = false) :
    (now < exp - 300
      → ∀ exchange, get_access_token ⟨some tok, some exp⟩ now exchange
          = some (tok, ⟨some tok, some exp⟩))
    ∧ (¬ now < exp - 300
      → ∀ (tok2 : String) (expires_in : Int),
          get_access_token ⟨some tok, some exp⟩ now (some (tok2, expires_in))
            = some (tok2, ⟨some tok2, some (now + expires_in)⟩))
    ∧ get_access_token ⟨some "tok", some 3600⟩ 3000 (some ("new", 3600))
        = some ("tok", ⟨some "tok", some 3600⟩)
    ∧ get_access_token ⟨some "tok", some 3600⟩ 3400 (some ("new", 3600))
        = some ("new", ⟨some "new", some 7000⟩) := by
  refine ⟨?_, ?_, by decide, by decide⟩
  · intro h exchange
    simp [get_access_token, hne, h]
  · intro h tok2 expires_in
    simp [get_access_token, h]

/-- C3 witness: the theorem applied at a concrete non-empty token with a
fresh and with an expired cache. -/
theorem c3_token_cache_witness :
    get_access_token ⟨some "t", some 1000⟩ 0 none
      = some ("t", ⟨some "t", some 1000⟩)
    ∧ get_access_token ⟨some "t", some 1000⟩ 900 (some ("u", 50))
      = some ("u", ⟨some "u", some 950⟩) :=
  ⟨(c3_token_cache "t" 1000 0 (by decide)).1 (by decide) none,
   (c3_token_cache "t" 1000 900 (by decide)).2.1 (by decide) "u" 50⟩

/-- C4: a successful status response with an empty `data` list yields
offline (`none`), a non-empty list yields its first entry (preserving
the title, e.g. "Test Stream"), and `is_live` is true exactly when
`get_stream_info` yields a snapshot. -/
theorem c4_stream_info_mapping :
    get_stream_info 200 ([] : List StreamSnapshot) = some none
    ∧ (∀ (s : StreamSnapshot) (rest : List StreamSnapshot),
        get_stream_info 200 (s :: rest) = some (some s))
    ∧ (∀ streams : List StreamSnapshot,
        (is_live 200 streams = some true
          ↔ ∃ snap, get_stream_info 200 streams = some (some snap)))
    ∧ get_stream_info 200 [⟨"123", "Test Stream", "Just Chatting", 100⟩]
        = some (some ⟨"123", "Test Stream", "Just Chatting", 100⟩) := by
  refine ⟨rfl, fun s rest => rfl, ?_, rfl⟩
  intro streams
  cases streams <;> simp [is_live, get_stream_info]

/-! ## LiveBot: manual post trigger -/

/-- Argument tuple passed to `post_live_notification` by the bot. -/
structure NotificationArgs where
  username : String
  stream_url : String
  stream_title : Option String
  game_name : Option String
  is_manual_override : Bool
deriving DecidableEq, Repr

/-- Embedding of `LiveBot._trigger_manual_post`: with a live snapshot it
forwards the snapshot's title and game and the monitor's stream URL;
when offline it substitutes the generic title "Online!", the generic
game "Chatting" and the fallback URL built from the configured
username.  Both branches set `is_manual_override := True`. -/
def trigger_manual_post (configUsername monitorUsername : String)
    (streamInfo : Option StreamSnapshot) : NotificationArgs :=
  match streamInfo with
  | some info =>
    ⟨configUsername, get_stream_url monitorUsername,
      some info.title, some info.game_name, true⟩
  | none =>
    ⟨configUsername, "https://twitch.tv/" ++ configUsername,
      some "Online!", some "Chatting", true⟩

/-- C6: every manual trigger publishes with force=true, and with the
channel offline it still publishes, with generic title "Online!",
generic game "Chatting" and the fallback URL for the username. -/
theorem c6_manual_post (configUsername monitorUsername : String)
    (streamInfo : Option StreamSnapshot) :
    (trigger_manual_post configUsername monitorUsername
        streamInfo).is_manual_override = true
    ∧ trigger_manual_post configUsername monitorUsername none
      = ⟨configUsername, "https://twitch.tv/" ++ configUsername,
          some "Online!", some "Chatting", true⟩ := by
  cases streamInfo <;> exact ⟨rfl, rfl⟩

/-! ## BlueSkyPoster: link preview fetching -/

/-- Metadata extracted from the fetched page's HTML, as probed by
`_fetch_link_preview` via BeautifulSoup: each field is the `content`
attribute of the corresponding meta tag (or the text of the `title`
element), `none` when the tag is absent. -/
structure PageMeta where
  og_title : Option String
  title_text : Option String
  og_description : Option String
  meta_description : Option String
  og_image : Option String
deriving DecidableEq, Repr

/-- Title selection of `_fetch_link_preview`: a truthy `og:title` content,
else the stripped `title` element text, else the empty default. -/
def card_title (m : PageMeta) : String :=
  if pyTruthy m.og_title then m.og_title.getD ""
  else
    match m.title_text with
    | some t => t.trim
    | none => ""

/-- Description selection of `_fetch_link_preview`: a truthy
`og:description` content, else a truthy `name=description` content, else
the empty default. -/
def card_description (m : PageMeta) : String :=
  if pyTruthy m.og_description then m.og_description.getD ""
  else if pyTruthy m.meta_description then m.meta_description.getD ""
  else ""

/-- Thumbnail logic of `_fetch_link_preview`: only attempted when a
truthy `og:image` is present; `imgDownload` is the downloaded image's
byte length (`none` when the download fails), and the blob is uploaded
only when the length is at most 1,000,000 bytes, `uploadBlob` being the
upload outcome (`none` when the upload or the client login fails, both
caught by the inner handler). -/
def card_thumb (m : PageMeta) (imgDownload : Option Nat)
    (uploadBlob : Option String) : Option String :=
  if pyTruthy m.og_image then
    match imgDownload with
    | none => none
    | some len => if len ≤ 1000000 then uploadBlob else none
  else none

/-- Python string slicing `s[:n]`: the first `n` characters (code
points) of `s`. -/
def py_slice (s : String) (n : Nat) : String :=
  ⟨s.1.take n⟩

/-- The slicing model agrees with the standard `String.take`. -/
theorem py_slice_eq_take (s : String) (n : Nat) : py_slice s n = s.take n :=
  (String.take_eq s n).symm

/-- Truncation to `n` characters yields a string of at most `n`
characters. -/
theorem py_slice_length_le (s : String) (n : Nat) :
    (py_slice s n).length ≤ n := by
  show (s.1.take n).length ≤ n
  simp [List.length_take]

/-- Embedding of `BlueSkyPoster._fetch_link_preview`.  `libsAvailable`
models the import-time presence of requests/BeautifulSoup; `page` is the
fetched and parsed page (`none` when the GET, `raise_for_status` or the
parse fails, all caught by the outer handler).  On success the card's
title is truncated to 300 characters and the description to 1000. -/
def fetch_link_preview (url : String) (libsAvailable : Bool)
    (page : Option PageMeta) (imgDownload : Option Nat)
    (uploadBlob : Option String) : Option EmbedCard :=
  if !libsAvailable then none
  else
    match page with
    | none => none
    | some m =>
      some ⟨url, py_slice (card_title m) 300, py_slice (card_description m) 1000,
        card_thumb m imgDownload uploadBlob⟩

/-- C7: with an `og:image` present, an image over 1,000,000 bytes is
discarded (card without thumbnail, title and description still
populated), an image of at most 1,000,000 bytes is uploaded and
attached, and every returned card has a title of at most 300 characters
and a description of at most 1000. -/
theorem c7_thumbnail_size_limit (url : String) (m : PageMeta) (len : Nat)
    (uploadBlob : Option String) (himg : pyTruthy m.og_image = true) :
    (1000000 < len →
      fetch_link_preview url true (some m) (some len) uploadBlob
        = some ⟨url, py_slice (card_title m) 300,
            py_slice (card_description m) 1000, none⟩)
    ∧ (len ≤ 1000000 →
      fetch_link_preview url true (some m) (some len) uploadBlob
        = some ⟨url, py_slice (card_title m) 300,
            py_slice (card_description m) 1000, uploadBlob⟩)
    ∧ (∀ (url2 : String) (libs : Bool) (page : Option PageMeta)
        (img : Option Nat) (up : Option String) (c : EmbedCard),
      fetch_link_preview url2 libs page img up = some c
        → c.title.length ≤ 300 ∧ c.description.length ≤ 1000) := by
  refine ⟨?_, ?_, ?_⟩
  · intro h
    have h2 : ¬ len ≤ 1000000 := by omega
    simp [fetch_link_preview, card_thumb, himg, h2]
  · intro h
    simp [fetch_link_preview, card_thumb, himg, h]
  · intro url2 libs page img up c hc
    cases libs with
    | false => simp [fetch_link_preview] at hc
    | true =>
      cases page with
      | none => simp [fetch_link_preview] at hc
      | some m2 =>
        have hcard : c = ⟨url2, py_slice (card_title m2) 300,
            py_slice (card_description m2) 1000, card_thumb m2 img up⟩ := by
          simpa [fetch_link_preview] using hc.symm
        subst hcard
        exact ⟨py_slice_length_le _ _, py_slice_length_le _ _⟩

/-- C7 witness: a concrete page with an og:image whose download is
1,000,001 bytes yields a card with title and description populated and
no thumbnail. -/
theorem c7_thumbnail_size_limit_witness :
    fetch_link_preview "https://twitch.tv/u" true
        (some ⟨some "T", none, some "D", none, some "i"⟩)
        (some 1000001) (some "blobref")
      = some ⟨"https://twitch.tv/u",
          py_slice (card_title ⟨some "T", none, some "D", none, some "i"⟩) 300,
          py_slice (card_description ⟨some "T", none, some "D", none, some "i"⟩) 1000,
          none⟩ :=
  (c7_thumbnail_size_limit "https://twitch.tv/u"
    ⟨some "T", none, some "D", none, some "i"⟩ 1000001 (some "blobref")
    (by decide)).1 (by decide)

/-- C8: the preview fetcher has no raising outcome: a missing HTML
capability or a failed page fetch yields `none`, a failed image download
or failed upload yields a card without a thumbnail, the publish outcome
is independent of the embed, and the notification still posts with the
embed omitted. -/
theorem c8_preview_failures_degrade :
    (∀ (url : String) (page : Option PageMeta) (img : Option Nat)
        (up : Option String),
      fetch_link_preview url false page img up = none)
    ∧ (∀ (url : String) (img : Option Nat) (up : Option String),
      fetch_link_preview url true none img up = none)
    ∧ (∀ (url : String) (m : PageMeta) (up : Option String),
      fetch_link_preview url true (some m) none up
        = some ⟨url, py_slice (card_title m) 300,
            py_slice (card_description m) 1000, none⟩)
    ∧ (∀ (url : String) (m : PageMeta) (len : Nat),
      fetch_link_preview url true (some m) (some len) none
        = some ⟨url, py_slice (card_title m) 300,
            py_slice (card_description m) 1000, none⟩)
    ∧ (∀ (s : PostState) (now : Int) (u : String) (t g : Option String)
        (force : Bool) (sendOk : Bool) (e1 e2 : Option EmbedCard),
      post_live_notification s now u t g force e1 sendOk
        = post_live_notification s now u t g force e2 sendOk)
    ∧ (∀ (now : Int) (u : String) (t g : Option String) (force : Bool),
      post_live_notification ⟨none, none⟩ now u t g force none true
        = (some true,
            ⟨some (build_notification_text u t g), some now⟩)) := by
  refine ⟨?_, ?_, ?_, ?_, ?_, ?_⟩
  · intro url page img up
    simp [fetch_link_preview]
  · intro url img up
    simp [fetch_link_preview]
  · intro url m up
    cases hq : pyTruthy m.og_image <;>
      simp [fetch_link_preview, card_thumb, hq]
  · intro url m len
    cases hq : pyTruthy m.og_image <;>
      cases hl : decide (len ≤ 1000000) <;>
        simp_all [fetch_link_preview, card_thumb]
  · intro s now u t g force sendOk e1 e2
    rfl
  · intro now u t g force
    simp [post_live_notification, post, is_duplicate_post]

end BskyBot
